import Mathlib

/-!
Verification development for the ai-rewind checkpoint/rollback tool.

The definitions below are a shallow embedding of the TypeScript sources:
`src/Config.ts` (configuration loading) and `src/AITracker.ts` (the
hardened `AITracker` class: `execGit`, `commit`, `rollback`,
`cleanupOldBackups`).  External collaborators (the git engine, the file
system, the interactive prompt) are modelled at their interface boundary:
the shadow store's observable state is a record, every subprocess
invocation is recorded in a trace, and interactive / clock inputs are
explicit parameters.
-/

/- ===================== Config.ts ===================== -/

/-- A parsed JSON value, as far as the config schema needs. -/
inductive JVal where
  | jnum  (n : Int)
  | jstr  (s : String)
  | jbool (b : Bool)
  | jarr  (elems : List String)
  | jnull
  deriving DecidableEq

/-- A parsed top-level JSON object: an ordered list of key/value fields. -/
abbrev JObj := List (String × JVal)

/-- First-match lookup of a key, mirroring JS property access. -/
def jobjGet : JObj → String → Option JVal
  | [], _ => none
  | (k', v) :: rest, k => if k' = k then some v else jobjGet rest k

/-- `Config.defaults.excludePatterns` from `Config.ts`. -/
def defaultExcludePatterns : List String :=
  ["node_modules/**", ".git/**", ".git-ai-tracking/**", "**/*.log",
   "**/dist/**", "**/build/**", "**/.env*", "**/coverage/**", "**/*.tmp"]

/-- `Config.defaults` from `Config.ts`, as a JSON object. -/
def defaultsObj : JObj :=
  [("excludePatterns", .jarr defaultExcludePatterns),
   ("autoCommitThreshold", .jnum 5),
   ("commitMessageFormat", .jstr "AI change at \x7btimestamp\x7d"),
   ("maxCommits", .jnum 100),
   ("verboseOutput", .jbool false),
   ("defaultBranch", .jstr "master")]

/-- JS object spread `\x7b ...base, ...upd \x7d`: keys of `base` in order,
with values overridden by `upd` where present, followed by the keys of
`upd` that are not in `base`. -/
def spreadMerge (base upd : JObj) : JObj :=
  base.map (fun p => (p.1, (jobjGet upd p.1).getD p.2)) ++
    upd.filter (fun p => (jobjGet base p.1).isNone)

/-- `Config.load` from `Config.ts`: on a successfully parsed file
`return \x7b ...this.defaults, ...userConfig \x7d`; a missing file or a
parse error (`none` here) yields the defaults. -/
def Config.load (parsed : Option JObj) : JObj :=
  match parsed with
  | some userConfig => spreadMerge defaultsObj userConfig
  | none => defaultsObj

/-- JS truthiness of a JSON value (`0`, `""`, `false`, `null` are falsy). -/
def jtruthy : JVal → Bool
  | .jnum n => n != 0
  | .jstr s => s != ""
  | .jbool b => b
  | .jarr _ => true
  | .jnull => false

/-- The `autoCommitThreshold` getter from `Config.ts`:
`this.config.autoCommitThreshold || this.defaults.autoCommitThreshold!`.
In JS the `||` falls back only on a falsy stored value; a truthy value of
any type is returned as-is. -/
def Config.autoCommitThreshold (cfg : JObj) : JVal :=
  match jobjGet cfg "autoCommitThreshold" with
  | some v => if jtruthy v then v else .jnum 5
  | none => .jnum 5

/- ===================== JS string primitives ===================== -/

/-- JS `String.prototype.trim`: strip leading and trailing whitespace.
(Structurally recursive equivalent of the runtime's trim, so that it
evaluates inside the kernel.) -/
def jsTrim (s : String) : String :=
  ⟨((s.data.dropWhile Char.isWhitespace).reverse.dropWhile Char.isWhitespace).reverse⟩

/-- JS `String.prototype.toLowerCase` (ASCII case mapping suffices for
the confirmation answers compared here). -/
def jsToLower (s : String) : String := ⟨s.data.map Char.toLower⟩

/-- Auxiliary for `replaceFirst`: replace the first occurrence of `pat`. -/
def replaceFirstAux (pat rep : List Char) : List Char → List Char
  | [] => []
  | c :: rest =>
      if pat.isPrefixOf (c :: rest) then rep ++ (c :: rest).drop pat.length
      else c :: replaceFirstAux pat rep rest

/-- JS `String.prototype.replace` with a string pattern: replace the
first occurrence only. -/
def replaceFirst (s pat rep : String) : String :=
  ⟨replaceFirstAux pat.data rep.data s.data⟩

/- ===================== AITracker.ts : data model ===================== -/

/-- A checkpoint (commit) in the shadow store: its hash, message, and the
working-tree snapshot it records.  History is strictly linear. -/
structure Checkpoint where
  hash : String
  message : String
  snapshot : List (String × String)
  deriving DecidableEq

/-- Observable state of the shadow store behind the git engine interface:
`initialized` is the existence of `.git-ai-tracking`; `history` is the
commit list, newest first (the last element is the initial checkpoint);
`tags` is the backup-tag list as `tag -l backup-* --sort=-creatordate`
returns it, newest-created first (every creation prepends); `workStatus`
is the `status --porcelain` output of the shadow store ("" when clean);
`workTree` is the working-tree content. -/
structure ShadowStore where
  initialized : Bool
  history : List Checkpoint
  tags : List String
  workStatus : String
  workTree : List (String × String)
  deriving DecidableEq

/-- A recorded invocation of the external git engine.  `viaExecGit` is
true when the call went through `AITracker.execGit` (and hence through
its argument-sanitizer gate); `shell` is the `execa` shell option (the
source always invokes with `shell: false`, an argument vector). -/
structure GitInvocation where
  args : List String
  viaExecGit : Bool
  shell : Bool
  deriving DecidableEq

/-- An invocation issued through `execGit` (sanitized, no shell). -/
def gitCall (args : List String) : GitInvocation := ⟨args, true, false⟩

/-- The one direct `execa('git', ['status', '--porcelain'], ...)` call in
`rollback`: the main-repository dirty check does not go through
`execGit`, hence bypasses the sanitizer gate (`viaExecGit := false`).
`execa` without a shell option still uses an argument vector. -/
def primaryStatusCall : GitInvocation := ⟨["status", "--porcelain"], false, false⟩

/- ===================== AITracker.execGit : sanitizer gate ===================== -/

/-- The `dangerousPatterns` list from `execGit` in `AITracker.ts`. -/
def dangerousPatterns : List String :=
  [";", "&&", "||", "|", ">", "<", "\x60", "$", "\n", "\r"]

/-- Substring test on character lists: the pattern occurs somewhere. -/
def hasInfixAux (pat : List Char) : List Char → Bool
  | [] => pat.isEmpty
  | c :: rest => pat.isPrefixOf (c :: rest) || hasInfixAux pat rest

/-- `arg.includes(pattern)` from JS. -/
def containsSub (s pat : String) : Bool := hasInfixAux pat.data s.data

/-- One argument passes the gate: it contains none of the dangerous
patterns. -/
def argClean (a : String) : Bool := dangerousPatterns.all (fun p => !(containsSub a p))

/-- The sanitizer gate of `execGit`: every argument must be clean, else
`execGit` throws before invoking the engine. -/
def execGitCheck (args : List String) : Bool := args.all argClean

/- ===================== AITracker.rollback ===================== -/

/-- Terminal classification of a `rollback` call.  `invalidCount` and
`notInitialized` are thrown errors; `insufficientHistory` covers both the
`commitCount <= 1` and the `count >= commitCount` early returns;
the conflict constructors are the warning-level aborts; `dryRunDone`,
`cancelled` and `completed` are the success terminal states. -/
inductive RollbackResult where
  | invalidCount
  | notInitialized
  | insufficientHistory
  | uncommittedChangesConflict
  | mainRepoConflict
  | dryRunDone
  | cancelled
  | completed
  deriving DecidableEq

/-- Result of the read-only status query against the primary repository:
either its porcelain output, or a failure of the query itself. -/
inductive PrimaryQuery where
  | ok (out : String)
  | failed
  deriving DecidableEq

/-- The `options` argument of `rollback`. -/
structure RollbackOptions where
  force : Bool
  dryRun : Bool
  noConfirm : Bool
  deriving DecidableEq

/-- External inputs consumed by one `rollback` run: whether a primary
repository exists at the working-tree root, the outcome of its status
query, the timestamp used for the backup-tag name (ISO time with `:` and
`.` already replaced by `-`), whether the engine's tag creation succeeds,
and the interactive answer. -/
structure RollbackEnv where
  primaryExists : Bool
  primaryStatus : PrimaryQuery
  now : String
  tagCreateOk : Bool
  answer : String
  deriving DecidableEq

/-- Outcome of one `rollback` run: terminal state, resulting store state,
and the engine invocations performed. -/
structure RollbackOutcome where
  result : RollbackResult
  store : ShadowStore
  trace : List GitInvocation
  deriving DecidableEq

/-- `git log --format=... --date=short -n` display query. -/
def shortLogArgs (n : String) : List String :=
  ["log", "--format=%h - %ad - %s", "--date=short", n]

/-- Trace after the history-depth read (`rev-list --count HEAD`). -/
def historyCountTrace : List GitInvocation :=
  [gitCall ["rev-list", "--count", "HEAD"]]

/-- Trace after depth read, history display and local dirty check. -/
def dirtyCheckTrace : List GitInvocation :=
  historyCountTrace ++ [gitCall (shortLogArgs "-5"), gitCall ["status", "--porcelain"]]

/-- The backup tag name computed in `rollback`. -/
def backupTagName (now : String) : String := "backup-" ++ now

/-- Deleting a list of tags one by one through `execGit`; a tag whose
arguments fail the sanitizer gate makes `execGit` throw, which aborts the
loop inside `cleanupOldBackups`'s catch, leaving the rest undeleted.
Returns the performed invocations and the tags left undeleted.
(The engine's own `tag -d` is modelled as succeeding; a deletion failure
is silently caught, see `cleanupOldBackups`.) -/
def deleteTags : List String → List GitInvocation × List String
  | [] => ([], [])
  | t :: rest =>
      if execGitCheck ["tag", "-d", t] then
        let d := deleteTags rest
        (gitCall ["tag", "-d", t] :: d.1, d.2)
      else ([], t :: rest)

/-- `AITracker.cleanupOldBackups(keepCount)`: list the backup tags newest
first; if more than `keepCount` exist, delete the older ones.  Any error
is silently swallowed. Returns the new tag list and the invocations. -/
def cleanupOldBackups (tags : List String) (keepCount : Nat) :
    List String × List GitInvocation :=
  let listInv := gitCall ["tag", "-l", "backup-*", "--sort=-creatordate"]
  if keepCount < tags.length then
    let d := deleteTags (tags.drop keepCount)
    (tags.take keepCount ++ d.2, listInv :: d.1)
  else (tags, [listInv])

/-- The store after the backup-creation step of `rollback`: create the
tag `backup-<now>` at HEAD (throwing inside the try if the gate rejects,
or the engine fails — both caught with a warning, no abort), then run
`cleanupOldBackups 10`. -/
def backupStepStore (store : ShadowStore) (now : String) (tagCreateOk : Bool) :
    ShadowStore :=
  if execGitCheck ["tag", backupTagName now, "HEAD"] then
    if tagCreateOk then
      { store with tags := (cleanupOldBackups (backupTagName now :: store.tags) 10).1 }
    else store
  else store

/-- The invocations of the backup-creation step of `rollback`. -/
def backupStepTrace (store : ShadowStore) (now : String) (tagCreateOk : Bool) :
    List GitInvocation :=
  if execGitCheck ["tag", backupTagName now, "HEAD"] then
    if tagCreateOk then
      gitCall ["tag", backupTagName now, "HEAD"] ::
        (cleanupOldBackups (backupTagName now :: store.tags) 10).2
    else [gitCall ["tag", backupTagName now, "HEAD"]]
  else []

/-- The invocations of the dry-run preview: `rev-parse HEAD~count`, a
one-line log of the target, and the name-status diff. -/
def dryRunTrace (store : ShadowStore) (count : Int) : List GitInvocation :=
  let targetCommit := (((store.history.drop count.toNat).head?).map Checkpoint.hash).getD ""
  [gitCall ["rev-parse", "HEAD~" ++ toString count],
   gitCall ["log", "--format=%h - %ad - %s", "--date=short", "-1", targetCommit],
   gitCall ["diff", "--name-status", "HEAD~" ++ toString count, "HEAD"]]

/-- The destructive step: `reset --hard HEAD~count` discards the `count`
newest checkpoints, cleans the shadow status, and sets the working tree
to the new HEAD's snapshot; then a one-line log of the new state. -/
def rollbackReset (store : ShadowStore) (count : Int) (trace : List GitInvocation) :
    RollbackOutcome :=
  ⟨.completed,
   { store with
       history := store.history.drop count.toNat,
       workStatus := "",
       workTree := (((store.history.drop count.toNat).head?).map Checkpoint.snapshot).getD [] },
   trace ++ [gitCall ["reset", "--hard", "HEAD~" ++ toString count],
             gitCall (shortLogArgs "-1")]⟩

/-- States 5-9 of `rollback`: dry-run preview, backup creation and
retirement, interactive confirmation, destructive reset. -/
def rollbackFinish (store : ShadowStore) (count : Int) (options : RollbackOptions)
    (now : String) (tagCreateOk : Bool) (answer : String)
    (trace : List GitInvocation) : RollbackOutcome :=
  if options.dryRun then
    ⟨.dryRunDone, store, trace ++ dryRunTrace store count⟩
  else if options.noConfirm = false ∧ options.force = false ∧
      jsToLower answer ≠ "y" ∧ jsToLower answer ≠ "yes" then
    ⟨.cancelled, backupStepStore store now tagCreateOk,
     trace ++ backupStepTrace store now tagCreateOk⟩
  else
    rollbackReset (backupStepStore store now tagCreateOk) count
      (trace ++ backupStepTrace store now tagCreateOk)

/-- State 4 of `rollback`: if `.git` exists at the working-tree root,
query its status directly through `execa` (not `execGit`); a dirty
primary without `force` aborts; a failed query logs a note and
continues. -/
def rollbackPrimary (store : ShadowStore) (count : Int) (options : RollbackOptions)
    (env : RollbackEnv) (trace : List GitInvocation) : RollbackOutcome :=
  if env.primaryExists then
    let t := trace ++ [primaryStatusCall]
    match env.primaryStatus with
    | .ok mainStatus =>
        if jsTrim mainStatus ≠ "" ∧ options.force = false then
          ⟨.mainRepoConflict, store, t⟩
        else rollbackFinish store count options env.now env.tagCreateOk env.answer t
    | .failed =>
        rollbackFinish store count options env.now env.tagCreateOk env.answer t
  else rollbackFinish store count options env.now env.tagCreateOk env.answer trace

/-- `AITracker.rollback(count, options)` from `AITracker.ts`: input
validation, initialization check, history-depth validation, history
display, local dirty check, then the primary check and the rest. -/
def rollback (store : ShadowStore) (count : Int) (options : RollbackOptions)
    (env : RollbackEnv) : RollbackOutcome :=
  if count < 1 then ⟨.invalidCount, store, []⟩
  else if store.initialized = false then ⟨.notInitialized, store, []⟩
  else if store.history.length ≤ 1 then ⟨.insufficientHistory, store, historyCountTrace⟩
  else if (store.history.length : Int) ≤ count then
    ⟨.insufficientHistory, store, historyCountTrace⟩
  else if jsTrim store.workStatus ≠ "" ∧ options.force = false then
    ⟨.uncommittedChangesConflict, store, dirtyCheckTrace⟩
  else rollbackPrimary store count options env dirtyCheckTrace

/-- The guard conditions of states 1-4 that a run must pass to reach the
backup/confirm/reset phase (`rollbackFinish`). -/
def primaryPasses (env : RollbackEnv) (force : Bool) : Bool :=
  !env.primaryExists ||
    (match env.primaryStatus with
     | .failed => true
     | .ok s => (jsTrim s == "") || force)

/-- The invocation prefix accumulated by the time `rollbackFinish` runs. -/
def checksTrace (env : RollbackEnv) : List GitInvocation :=
  dirtyCheckTrace ++ (if env.primaryExists then [primaryStatusCall] else [])

/- ===================== AITracker.commit ===================== -/

/-- Terminal classification of a `commit` call. `messageTooLong`,
`notInitialized` and `invalidArgument` are thrown errors; `noChanges` is
the success-with-no-op return; `committed` created one checkpoint. -/
inductive CommitResult where
  | messageTooLong
  | notInitialized
  | noChanges
  | invalidArgument
  | committed
  deriving DecidableEq

/-- Outcome of one `commit` run. -/
structure CommitOutcome where
  result : CommitResult
  store : ShadowStore
  trace : List GitInvocation
  deriving DecidableEq

/-- `message.replace(/[\x00-\x1F\x7F]/g, '')`: drop ASCII control
characters U+0000..U+001F and U+007F. -/
def stripControl (s : String) : String :=
  ⟨s.data.filter (fun c => !(c.toNat ≤ 31 || c.toNat == 127))⟩

/-- The default `commitMessageFormat` from `Config.ts`. -/
def defaultMessageFormat : String := "AI change at \x7btimestamp\x7d"

/-- `Config.formatCommitMessage()` with the default template: substitute
the timestamp (current local time truncated to seconds, passed here as a
parameter). -/
def formatCommitMessage (timestamp : String) : String :=
  replaceFirst defaultMessageFormat "\x7btimestamp\x7d" timestamp

/-- The message `commit` ends up using: the control-stripped supplied
message when that is non-empty (JS `if (!message)` treats the stripped
empty string as absent), else the generated template message. -/
def chosenMessage (message : Option String) (timestamp : String) : String :=
  match message with
  | some m => if stripControl m = "" then formatCommitMessage timestamp else stripControl m
  | none => formatCommitMessage timestamp

/-- The message `commitBody` uses: the stripped supplied message when
non-empty (JS falsy check), else the generated template message. -/
def commitMsg (stripped : Option String) (timestamp : String) : String :=
  match stripped with
  | some m => if m = "" then formatCommitMessage timestamp else m
  | none => formatCommitMessage timestamp

/-- The read-only queries before the checkpoint: two status queries (the
change check and the file count for the progress hint) and the staging. -/
def commitPreTrace : List GitInvocation :=
  [gitCall ["status", "--porcelain"], gitCall ["status", "--porcelain"],
   gitCall ["add", "-A"]]

/-- The full invocation list of a successful commit: staging, checkpoint
creation, history count, periodic gc (every 10th checkpoint), and the
log display. -/
def commitMainTrace (store : ShadowStore) (msg : String) : List GitInvocation :=
  commitPreTrace ++
    [gitCall ["commit", "-m", msg], gitCall ["rev-list", "--count", "HEAD"]] ++
    (if (store.history.length + 1) % 10 = 0 then [gitCall ["gc", "--auto"]] else []) ++
    [gitCall ["log",
      "--format=%C(yellow)%h%C(reset) - %C(cyan)%ad%C(reset) - %s",
      "--date=short", "-5"]]

/-- The body of `commit` after message validation (`stripped` is the
already-stripped supplied message, if any): initialization check, status
query, no-op return on a clean tree, else a second status query (file
count for the progress hint), staging, checkpoint creation, periodic gc
and a log display.  The engine model: committing clears the porcelain
status and snapshots the working tree. -/
def commitBody (store : ShadowStore) (stripped : Option String) (timestamp : String) :
    CommitOutcome :=
  if store.initialized = false then ⟨.notInitialized, store, []⟩
  else if jsTrim store.workStatus = "" then
    ⟨.noChanges, store, [gitCall ["status", "--porcelain"]]⟩
  else if execGitCheck ["commit", "-m", commitMsg stripped timestamp] then
    ⟨.committed,
     { store with
         history := ⟨"h" ++ toString store.history.length,
                     commitMsg stripped timestamp, store.workTree⟩ :: store.history,
         workStatus := "" },
     commitMainTrace store (commitMsg stripped timestamp)⟩
  else ⟨.invalidArgument, store, commitPreTrace⟩

/-- `AITracker.commit(message)` from `AITracker.ts`: a supplied message
longer than 1000 characters throws before the initialization check and
before any engine invocation; otherwise control characters are stripped
from it and the body runs. -/
def commit (store : ShadowStore) (message : Option String) (timestamp : String) :
    CommitOutcome :=
  match message with
  | some m =>
      if 1000 < m.length then ⟨.messageTooLong, store, []⟩
      else commitBody store (some (stripControl m)) timestamp
  | none => commitBody store none timestamp

/-- The stripping `commit` applies to the supplied message before
handing it to the body. -/
def strippedOpt : Option String → Option String
  | some m => some (stripControl m)
  | none => none

/-- A supplied message passes the length validation. -/
def validMsgLen : Option String → Prop
  | some m => m.length ≤ 1000
  | none => True

/-- Safety discipline of one recorded invocation: never through a shell,
and if it bypassed the `execGit` gate it is the constant read-only
primary-status query. -/
def invokedSafely (inv : GitInvocation) : Prop :=
  inv.shell = false ∧ (inv.viaExecGit = false → inv.args = ["status", "--porcelain"])

/-- An invocation that would create a tag or reset history. -/
def isTagOrReset (inv : GitInvocation) : Bool :=
  inv.args.head? == some "tag" || inv.args.head? == some "reset"

/- ===================== concrete sample states ===================== -/

/-- The initial checkpoint created by `initialize`. -/
def sampleInit : Checkpoint := ⟨"h0", "Initial state before AI changes", []⟩

/-- One AI-change checkpoint on top of the initial one. -/
def sampleCp1 : Checkpoint := ⟨"h1", "Commit 1", [("a.txt", "1")]⟩

/-- An initialized store with two checkpoints, clean tree, no tags. -/
def sampleStore : ShadowStore :=
  ⟨true, [sampleCp1, sampleInit], [], "", [("a.txt", "1")]⟩

/-- The same store with an uncommitted working-tree change. -/
def sampleDirtyStore : ShadowStore :=
  ⟨true, [sampleCp1, sampleInit], [], " M a.txt", [("a.txt", "2")]⟩

/-- An initialized store with only the initial checkpoint, dirty tree. -/
def sampleFreshDirtyStore : ShadowStore :=
  ⟨true, [sampleInit], [], "?? b.txt", [("b.txt", "2")]⟩

/-- All rollback options off. -/
def allOff : RollbackOptions := ⟨false, false, false⟩

/-- Environment without a primary repository; non-affirmative answer. -/
def sampleEnvNoPrimary : RollbackEnv :=
  ⟨false, .ok "", "2025-01-01T00-00-00-000Z", true, "n"⟩

/-- Environment with a clean primary repository present. -/
def sampleEnvPrimary : RollbackEnv :=
  ⟨true, .ok "", "2025-01-01T00-00-00-000Z", true, "n"⟩

/-- A 1001-character message, exceeding the 1000-character cap. -/
def longMessage : String := ⟨List.replicate 1001 'a'⟩

/- ===================== lemmas about the config merge ===================== -/

theorem jobjGet_append (xs ys : JObj) (k : String) :
    jobjGet (xs ++ ys) k =
      (match jobjGet xs k with
       | some v => some v
       | none => jobjGet ys k) := by
  induction xs with
  | nil => simp [jobjGet]
  | cons p rest ih =>
      obtain ⟨k', v⟩ := p
      by_cases h : k' = k <;> simp [jobjGet, h, ih]

theorem jobjGet_map_override (base upd : JObj) (k : String) :
    jobjGet (base.map (fun p => (p.1, (jobjGet upd p.1).getD p.2))) k =
      (jobjGet base k).map (fun v => (jobjGet upd k).getD v) := by
  induction base with
  | nil => simp [jobjGet]
  | cons p rest ih =>
      obtain ⟨k', v⟩ := p
      by_cases h : k' = k
      · subst h; simp [jobjGet]
      · simp [jobjGet, h, ih]

theorem jobjGet_filter_new (base upd : JObj) (k : String) :
    jobjGet (upd.filter (fun p => (jobjGet base p.1).isNone)) k =
      (if (jobjGet base k).isNone then jobjGet upd k else none) := by
  induction upd with
  | nil => simp [jobjGet]
  | cons p rest ih =>
      obtain ⟨k', v⟩ := p
      by_cases h : k' = k
      · subst h
        by_cases hb : (jobjGet base k').isNone
        · simp [List.filter, jobjGet, hb]
        · simp [List.filter, jobjGet, hb, ih]
      · by_cases hb : (jobjGet base k').isNone
        · simp [List.filter, jobjGet, hb, h, ih]
        · simp [List.filter, jobjGet, hb, h, ih]

/-- The key characterization of `Config.load` on a parsed file: the
result is a raw merge — every top-level field of the file, known or
unknown, valid or not, appears verbatim, and only fields absent from the
file fall back to the defaults. -/
theorem config_load_lookup (o : JObj) (k : String) :
    jobjGet (Config.load (some o)) k =
      (match jobjGet o k with
       | some v => some v
       | none => jobjGet defaultsObj k) := by
  show jobjGet (spreadMerge defaultsObj o) k = _
  unfold spreadMerge
  rw [jobjGet_append, jobjGet_map_override, jobjGet_filter_new]
  cases hb : jobjGet defaultsObj k with
  | none =>
      simp only [Option.map_none', hb, Option.isNone_none, if_pos]
      cases jobjGet o k <;> rfl
  | some d =>
      simp only [Option.map_some', hb, Option.isNone_some, Bool.false_eq_true, if_false]
      cases jobjGet o k <;> rfl

/-- A config file whose `autoCommitThreshold` is out of the stated
bounds and which carries an unknown key. -/
def outOfBoundsConfig : JObj :=
  [("autoCommitThreshold", .jnum 2000), ("maliciousKey", .jstr "x")]

/-- C1 counterexample: on a file with `autoCommitThreshold = 2000`
(outside [1,1000]) and an unknown key, `Config.load` keeps the
out-of-bounds value (the getter serves it too) and retains the unknown
key — it is a raw merge, not per-field validation. -/
theorem config_load_claim_counterexample :
    jobjGet (Config.load (some outOfBoundsConfig)) "autoCommitThreshold" =
        some (.jnum 2000) ∧
    jobjGet (Config.load (some outOfBoundsConfig)) "autoCommitThreshold" ≠
        some (.jnum 5) ∧
    Config.autoCommitThreshold (Config.load (some outOfBoundsConfig)) = .jnum 2000 ∧
    jobjGet (Config.load (some outOfBoundsConfig)) "maliciousKey" = some (.jstr "x") := by
  decide

/-- C1 (amended): `Config.load` builds the effective configuration as a
raw spread merge of the parsed file over the built-in defaults: every
top-level field of the file (including unknown keys and values failing
the stated bounds or types) is kept verbatim, a field absent from the
file takes its built-in default, and only a file that is missing or
fails to parse yields the defaults wholesale. -/
theorem config_load_raw_merge :
    (∀ (o : JObj) (k : String),
        jobjGet (Config.load (some o)) k =
          (match jobjGet o k with
           | some v => some v
           | none => jobjGet defaultsObj k)) ∧
    Config.load none = defaultsObj :=
  ⟨config_load_lookup, rfl⟩

/- ===================== helper lemmas : rollback structure ===================== -/

theorem invOk_gitCall (a : List String) : invokedSafely (gitCall a) :=
  ⟨rfl, fun h => Bool.noConfusion h⟩

theorem invOk_primaryStatusCall : invokedSafely primaryStatusCall :=
  ⟨rfl, fun _ => rfl⟩

/-- `TraceOk tr`: every invocation in `tr` respects the discipline. -/
def TraceOk (tr : List GitInvocation) : Prop := ∀ inv ∈ tr, invokedSafely inv

theorem traceOk_append {t1 t2 : List GitInvocation}
    (a : TraceOk t1) (b : TraceOk t2) : TraceOk (t1 ++ t2) := by
  intro inv h
  rcases List.mem_append.mp h with h' | h'
  · exact a inv h'
  · exact b inv h'

theorem traceOk_deleteTags (l : List String) : TraceOk (deleteTags l).1 := by
  induction l with
  | nil => intro inv h; cases h
  | cons t rest ih =>
      unfold deleteTags
      split
      · intro inv h
        rcases List.mem_cons.mp h with h' | h'
        · exact h' ▸ invOk_gitCall _
        · exact ih inv h'
      · intro inv h; cases h

theorem traceOk_cleanup (tags : List String) (k : Nat) :
    TraceOk (cleanupOldBackups tags k).2 := by
  unfold cleanupOldBackups
  split
  · intro inv h
    rcases List.mem_cons.mp h with h' | h'
    · exact h' ▸ invOk_gitCall _
    · exact traceOk_deleteTags _ inv h'
  · intro inv h
    rcases List.mem_cons.mp h with h' | h'
    · exact h' ▸ invOk_gitCall _
    · cases h'

theorem traceOk_backupStep (s : ShadowStore) (now : String) (tOk : Bool) :
    TraceOk (backupStepTrace s now tOk) := by
  unfold backupStepTrace
  split
  · split
    · intro inv h
      rcases List.mem_cons.mp h with h' | h'
      · exact h' ▸ invOk_gitCall _
      · exact traceOk_cleanup _ _ inv h'
    · intro inv h
      rcases List.mem_cons.mp h with h' | h'
      · exact h' ▸ invOk_gitCall _
      · cases h'
  · intro inv h; cases h

theorem traceOk_dryRun (s : ShadowStore) (c : Int) : TraceOk (dryRunTrace s c) := by
  intro inv h
  unfold dryRunTrace at h
  rcases List.mem_cons.mp h with h' | h'
  · exact h' ▸ invOk_gitCall _
  rcases List.mem_cons.mp h' with h'' | h''
  · exact h'' ▸ invOk_gitCall _
  rcases List.mem_cons.mp h'' with h3 | h3
  · exact h3 ▸ invOk_gitCall _
  · cases h3

theorem traceOk_reset (s : ShadowStore) (c : Int) (tr : List GitInvocation)
    (h : TraceOk tr) : TraceOk (rollbackReset s c tr).trace := by
  unfold rollbackReset
  refine traceOk_append h ?_
  intro inv hm
  rcases List.mem_cons.mp hm with h' | h'
  · exact h' ▸ invOk_gitCall _
  rcases List.mem_cons.mp h' with h'' | h''
  · exact h'' ▸ invOk_gitCall _
  · cases h''

theorem traceOk_finish (s : ShadowStore) (c : Int) (o : RollbackOptions)
    (now : String) (tOk : Bool) (ans : String) (tr : List GitInvocation)
    (h : TraceOk tr) : TraceOk (rollbackFinish s c o now tOk ans tr).trace := by
  unfold rollbackFinish
  split
  · exact traceOk_append h (traceOk_dryRun s c)
  · split
    · exact traceOk_append h (traceOk_backupStep s now tOk)
    · exact traceOk_reset _ c _ (traceOk_append h (traceOk_backupStep s now tOk))

theorem traceOk_dirtyCheck : TraceOk dirtyCheckTrace := by
  intro inv h
  simp only [dirtyCheckTrace, historyCountTrace, List.cons_append, List.nil_append,
    List.mem_cons, List.not_mem_nil, or_false] at h
  rcases h with h | h | h <;> exact h ▸ invOk_gitCall _

theorem traceOk_checks (e : RollbackEnv) : TraceOk (checksTrace e) := by
  unfold checksTrace
  refine traceOk_append traceOk_dirtyCheck ?_
  split
  · intro inv h
    rcases List.mem_cons.mp h with h' | h'
    · exact h' ▸ invOk_primaryStatusCall
    · cases h'
  · intro inv h; cases h

/-- Case analysis of `rollback`: either one of the five guard aborts
(with the store unchanged and the read-only trace up to that guard), or
the run reaches the backup/confirm/reset phase with the accumulated
read-only trace. -/
theorem rollback_outcome_cases (s : ShadowStore) (c : Int) (o : RollbackOptions)
    (e : RollbackEnv) :
    rollback s c o e = ⟨.invalidCount, s, []⟩ ∨
    rollback s c o e = ⟨.notInitialized, s, []⟩ ∨
    rollback s c o e = ⟨.insufficientHistory, s, historyCountTrace⟩ ∨
    rollback s c o e = ⟨.uncommittedChangesConflict, s, dirtyCheckTrace⟩ ∨
    rollback s c o e = ⟨.mainRepoConflict, s, checksTrace e⟩ ∨
    rollback s c o e =
      rollbackFinish s c o e.now e.tagCreateOk e.answer (checksTrace e) := by
  unfold rollback
  by_cases h1 : c < 1
  · left; rw [if_pos h1]
  rw [if_neg h1]
  by_cases h2 : s.initialized = false
  · right; left; rw [if_pos h2]
  rw [if_neg h2]
  by_cases h3 : s.history.length ≤ 1
  · right; right; left; rw [if_pos h3]
  rw [if_neg h3]
  by_cases h4 : (s.history.length : Int) ≤ c
  · right; right; left; rw [if_pos h4]
  rw [if_neg h4]
  by_cases h5 : jsTrim s.workStatus ≠ "" ∧ o.force = false
  · right; right; right; left; rw [if_pos h5]
  rw [if_neg h5]
  obtain ⟨pe, ps, enow, etagOk, eans⟩ := e
  unfold rollbackPrimary checksTrace
  cases pe with
  | false =>
    iterate 5 right
    simp
  | true =>
    cases ps with
    | ok ms =>
        by_cases hms : jsTrim ms ≠ "" ∧ o.force = false
        · right; right; right; right; left
          simp [hms]
        · iterate 5 right
          simp [hms]
    | failed =>
        iterate 5 right
        simp

/-- When all guards of states 1-4 pass, `rollback` proceeds to the
backup/confirm/reset phase with the read-only trace accumulated so far. -/
theorem rollback_reaches_finish (s : ShadowStore) (c : Int) (o : RollbackOptions)
    (e : RollbackEnv)
    (h1 : ¬ c < 1) (h2 : s.initialized = true) (h3 : 1 < s.history.length)
    (h4 : c < (s.history.length : Int))
    (h5 : ¬(jsTrim s.workStatus ≠ "" ∧ o.force = false))
    (h6 : primaryPasses e o.force = true) :
    rollback s c o e =
      rollbackFinish s c o e.now e.tagCreateOk e.answer (checksTrace e) := by
  unfold rollback
  rw [if_neg h1, if_neg (by simp [h2]), if_neg (by omega), if_neg (by omega), if_neg h5]
  obtain ⟨pe, ps, enow, etagOk, eans⟩ := e
  unfold primaryPasses at h6
  unfold rollbackPrimary checksTrace
  cases pe with
  | false => simp
  | true =>
    cases ps with
    | ok ms =>
        have hms : ¬(jsTrim ms ≠ "" ∧ o.force = false) := by
          simp only [Bool.not_true, Bool.false_or] at h6
          rcases Bool.or_eq_true_iff.mp h6 with h | h
          · intro hc; exact hc.1 (by simpa using h)
          · intro hc; rw [hc.2] at h; cases h
        simp [hms]
    | failed => simp

/-- The backup-creation step touches only the tag list. -/
theorem backupStepStore_frame (s : ShadowStore) (now : String) (tOk : Bool) :
    (backupStepStore s now tOk).history = s.history ∧
    (backupStepStore s now tOk).workStatus = s.workStatus ∧
    (backupStepStore s now tOk).workTree = s.workTree ∧
    (backupStepStore s now tOk).initialized = s.initialized := by
  unfold backupStepStore
  split
  · split <;> exact ⟨rfl, rfl, rfl, rfl⟩
  · exact ⟨rfl, rfl, rfl, rfl⟩

/-- When every tag passes the sanitizer gate, the deletion loop runs to
completion. -/
theorem deleteTags_complete (l : List String)
    (h : ∀ t ∈ l, execGitCheck ["tag", "-d", t] = true) :
    (deleteTags l).2 = [] := by
  induction l with
  | nil => rfl
  | cons t rest ih =>
      unfold deleteTags
      rw [if_pos (h t (List.mem_cons_self t rest))]
      exact ih (fun t' ht' => h t' (List.mem_cons_of_mem t ht'))

/-- When every tag passes the gate, `cleanupOldBackups` keeps exactly
the `keep` newest tags. -/
theorem cleanup_take (tags : List String) (k : Nat)
    (h : ∀ t ∈ tags, execGitCheck ["tag", "-d", t] = true) :
    (cleanupOldBackups tags k).1 = tags.take k := by
  unfold cleanupOldBackups
  split
  · show List.take k tags ++ (deleteTags (List.drop k tags)).2 = List.take k tags
    rw [deleteTags_complete (tags.drop k)
      (fun t ht => h t (List.drop_subset k tags ht)), List.append_nil]
  · rw [List.take_of_length_le (by omega)]

/- ===================== C4 ===================== -/

/-- C4: for every initialized shadow store with checkpoint count `N` and
every integer `count >= 1`, if `count >= N` (including the degenerate
case `N <= 1`), `rollback` fails with `InsufficientHistory` and performs
no mutation: HEAD, history, tags and working tree are unchanged (the
whole store is returned as it was, and only the read-only history count
query was issued). -/
theorem rollback_insufficient_history (s : ShadowStore) (c : Int)
    (o : RollbackOptions) (e : RollbackEnv)
    (h1 : 1 ≤ c) (h2 : s.initialized = true)
    (h3 : (s.history.length : Int) ≤ c) :
    rollback s c o e = ⟨.insufficientHistory, s, historyCountTrace⟩ := by
  unfold rollback
  rw [if_neg (by omega), if_neg (by simp [h2])]
  by_cases hl : s.history.length ≤ 1
  · rw [if_pos hl]
  · rw [if_neg hl, if_pos h3]

/-- C4 witness: a two-checkpoint store and `count = 2`. -/
theorem rollback_insufficient_history_witness :
    rollback sampleStore 2 allOff sampleEnvNoPrimary =
      ⟨.insufficientHistory, sampleStore, historyCountTrace⟩ :=
  rollback_insufficient_history sampleStore 2 allOff sampleEnvNoPrimary
    (by decide) (by decide) (by decide)

/- ===================== C5 ===================== -/

/-- C5: when the shadow store's working tree is dirty and `force` is not
set (on a run that passes the earlier depth guards), `rollback` aborts
with the uncommitted-changes warning and zero side effects: the store is
returned unchanged (no backup tag, no retirement, no reset) and the
trace holds only read-only queries — no tag or reset invocation. -/
theorem rollback_dirty_abort (s : ShadowStore) (c : Int) (o : RollbackOptions)
    (e : RollbackEnv) (h1 : 1 ≤ c) (h2 : s.initialized = true)
    (h3 : 1 < s.history.length) (h4 : c < (s.history.length : Int))
    (h5 : jsTrim s.workStatus ≠ "") (h6 : o.force = false) :
    rollback s c o e = ⟨.uncommittedChangesConflict, s, dirtyCheckTrace⟩ ∧
    dirtyCheckTrace.all (fun inv => !(isTagOrReset inv)) = true := by
  refine ⟨?_, by decide⟩
  unfold rollback
  rw [if_neg (by omega), if_neg (by simp [h2]), if_neg (by omega), if_neg (by omega),
    if_pos ⟨h5, h6⟩]

/-- C5 witness: dirty store, `rollback 1` without force. -/
theorem rollback_dirty_abort_witness :
    rollback sampleDirtyStore 1 allOff sampleEnvNoPrimary =
      ⟨.uncommittedChangesConflict, sampleDirtyStore, dirtyCheckTrace⟩ ∧
    dirtyCheckTrace.all (fun inv => !(isTagOrReset inv)) = true :=
  rollback_dirty_abort sampleDirtyStore 1 allOff sampleEnvNoPrimary
    (by decide) (by decide) (by decide) (by decide) (by decide) (by decide)

/- ===================== C2 ===================== -/

/-- C2 counterexample: a rollback that reaches the confirmation prompt
and receives the answer "n" terminates as `cancelled`, but the store's
set of tags is NOT identical to its pre-call state: the backup tag
created before the prompt remains. -/
theorem rollback_cancel_tag_counterexample :
    (rollback sampleStore 1 allOff sampleEnvNoPrimary).result = .cancelled ∧
    (rollback sampleStore 1 allOff sampleEnvNoPrimary).store.tags =
      ["backup-2025-01-01T00-00-00-000Z"] ∧
    (rollback sampleStore 1 allOff sampleEnvNoPrimary).store.tags ≠
      sampleStore.tags := by
  decide

/-- C2 (amended): a rollback that reaches the interactive prompt
(neither `noConfirm` nor `force` nor `dryRun` set) and receives a
non-affirmative answer (anything other than "y"/"yes" case-insensitively)
terminates in the `cancelled` success state with no reset: HEAD, history,
working-tree content and status are unchanged; however, the store's tag
set is the one left by the backup-creation step that ran before the
prompt (the new backup tag is retained, with the 10-tag retention
applied). -/
theorem rollback_cancel_no_reset (s : ShadowStore) (c : Int) (e : RollbackEnv)
    (h1 : 1 ≤ c) (h2 : s.initialized = true) (h3 : 1 < s.history.length)
    (h4 : c < (s.history.length : Int)) (h5 : jsTrim s.workStatus = "")
    (h6 : primaryPasses e false = true)
    (h7 : jsToLower e.answer ≠ "y") (h8 : jsToLower e.answer ≠ "yes") :
    (rollback s c allOff e).result = .cancelled ∧
    (rollback s c allOff e).store.history = s.history ∧
    (rollback s c allOff e).store.workStatus = s.workStatus ∧
    (rollback s c allOff e).store.workTree = s.workTree ∧
    (rollback s c allOff e).store.initialized = s.initialized ∧
    (rollback s c allOff e).store = backupStepStore s e.now e.tagCreateOk := by
  rw [rollback_reaches_finish s c allOff e (by omega) h2 h3 h4
    (fun hc => hc.1 h5) h6]
  unfold rollbackFinish
  rw [if_neg (by decide), if_pos ⟨rfl, rfl, h7, h8⟩]
  obtain ⟨hh, hw, ht, hi⟩ := backupStepStore_frame s e.now e.tagCreateOk
  exact ⟨rfl, hh, hw, ht, hi, rfl⟩

/-- C2 witness: concrete cancelled run satisfying the amended claim. -/
theorem rollback_cancel_no_reset_witness :
    (rollback sampleStore 1 allOff sampleEnvNoPrimary).result = .cancelled ∧
    (rollback sampleStore 1 allOff sampleEnvNoPrimary).store.history =
      sampleStore.history ∧
    (rollback sampleStore 1 allOff sampleEnvNoPrimary).store.workStatus =
      sampleStore.workStatus ∧
    (rollback sampleStore 1 allOff sampleEnvNoPrimary).store.workTree =
      sampleStore.workTree ∧
    (rollback sampleStore 1 allOff sampleEnvNoPrimary).store.initialized =
      sampleStore.initialized ∧
    (rollback sampleStore 1 allOff sampleEnvNoPrimary).store =
      backupStepStore sampleStore sampleEnvNoPrimary.now
        sampleEnvNoPrimary.tagCreateOk :=
  rollback_cancel_no_reset sampleStore 1 sampleEnvNoPrimary
    (by decide) (by decide) (by decide) (by decide) (by decide) (by decide)
    (by decide) (by decide)

/- ===================== C6 ===================== -/

theorem dryRunTrace_no_mutation (s : ShadowStore) (c : Int) :
    (dryRunTrace s c).all (fun inv => !(isTagOrReset inv)) = true := by
  unfold dryRunTrace
  rfl

theorem checksTrace_no_mutation (e : RollbackEnv) :
    (checksTrace e).all (fun inv => !(isTagOrReset inv)) = true := by
  unfold checksTrace
  rw [List.all_append]
  cases hpe : e.primaryExists <;> simp [hpe] <;> decide

/-- C6: with `dryRun` set and any valid count, `rollback` never changes
the store — HEAD, history, tags and working tree are returned exactly as
they were — and its trace contains no tag or reset invocation (the run
terminates before the backup-tag-creation and reset steps); moreover,
when the run passes the guards and reaches the preview, it terminates in
the `dryRunDone` success state. -/
theorem rollback_dry_run_frame (s : ShadowStore) (c : Int) (o : RollbackOptions)
    (e : RollbackEnv) (hd : o.dryRun = true) (h1 : 1 ≤ c) :
    (rollback s c o e).store = s ∧
    (rollback s c o e).trace.all (fun inv => !(isTagOrReset inv)) = true ∧
    (s.initialized = true → 1 < s.history.length → c < (s.history.length : Int) →
      ¬(jsTrim s.workStatus ≠ "" ∧ o.force = false) →
      primaryPasses e o.force = true →
      (rollback s c o e).result = .dryRunDone) := by
  refine ⟨?_, ?_, ?_⟩
  · rcases rollback_outcome_cases s c o e with h | h | h | h | h | h <;> rw [h]
    unfold rollbackFinish
    rw [if_pos hd]
  · rcases rollback_outcome_cases s c o e with h | h | h | h | h | h <;> rw [h]
    · rfl
    · rfl
    · show historyCountTrace.all (fun inv => !(isTagOrReset inv)) = true
      decide
    · show dirtyCheckTrace.all (fun inv => !(isTagOrReset inv)) = true
      decide
    · exact checksTrace_no_mutation e
    · unfold rollbackFinish
      rw [if_pos hd]
      show (checksTrace e ++ dryRunTrace s c).all _ = true
      rw [List.all_append, checksTrace_no_mutation e, dryRunTrace_no_mutation s c]
      rfl
  · intro hi h3 h4 h5 h6
    rw [rollback_reaches_finish s c o e (by omega) hi h3 h4 h5 h6]
    unfold rollbackFinish
    rw [if_pos hd]

/-- C6 witness: a dry-run rollback on the two-checkpoint store. -/
theorem rollback_dry_run_frame_witness :
    (rollback sampleStore 1 ⟨false, true, false⟩ sampleEnvNoPrimary).store = sampleStore ∧
    (rollback sampleStore 1 ⟨false, true, false⟩ sampleEnvNoPrimary).trace.all
      (fun inv => !(isTagOrReset inv)) = true ∧
    (sampleStore.initialized = true → 1 < sampleStore.history.length →
      (1 : Int) < (sampleStore.history.length : Int) →
      ¬(jsTrim sampleStore.workStatus ≠ "" ∧
        (⟨false, true, false⟩ : RollbackOptions).force = false) →
      primaryPasses sampleEnvNoPrimary (⟨false, true, false⟩ : RollbackOptions).force = true →
      (rollback sampleStore 1 ⟨false, true, false⟩ sampleEnvNoPrimary).result = .dryRunDone) :=
  rollback_dry_run_frame sampleStore 1 ⟨false, true, false⟩ sampleEnvNoPrimary
    (by decide) (by decide)

/- ===================== C7 ===================== -/

theorem execGitCheck_forall {args : List String} (h : execGitCheck args = true) :
    ∀ a ∈ args, argClean a = true := by
  simpa [execGitCheck, List.all_eq_true] using h

/-- C7: for any rollback run that reaches the backup-creation step and
whose tag creation succeeds (the gate passes the tag name and the engine
call succeeds), and whose tag-delete calls pass the gate, the store's
backup-tag list afterwards — whether the run then cancels or completes —
is exactly the 10 most recently created tags (the newest first, with the
just-created tag among them), hence at most 10 tags exist. -/
theorem backup_retention (s : ShadowStore) (c : Int) (o : RollbackOptions)
    (e : RollbackEnv)
    (h1 : 1 ≤ c) (h2 : s.initialized = true) (h3 : 1 < s.history.length)
    (h4 : c < (s.history.length : Int))
    (h5 : ¬(jsTrim s.workStatus ≠ "" ∧ o.force = false))
    (h6 : primaryPasses e o.force = true) (h7 : o.dryRun = false)
    (h8 : execGitCheck ["tag", backupTagName e.now, "HEAD"] = true)
    (h9 : e.tagCreateOk = true)
    (h10 : ∀ t ∈ s.tags, execGitCheck ["tag", "-d", t] = true) :
    (rollback s c o e).store.tags = (backupTagName e.now :: s.tags).take 10 ∧
    (rollback s c o e).store.tags.length ≤ 10 ∧
    backupTagName e.now ∈ (rollback s c o e).store.tags := by
  have htags : (backupStepStore s e.now e.tagCreateOk).tags =
      (backupTagName e.now :: s.tags).take 10 := by
    unfold backupStepStore
    rw [if_pos h8, if_pos h9]
    show (cleanupOldBackups (backupTagName e.now :: s.tags) 10).1 = _
    apply cleanup_take
    intro t ht
    rcases List.mem_cons.mp ht with h' | h'
    · subst h'
      have hbtn : argClean (backupTagName e.now) = true :=
        execGitCheck_forall h8 _ (by simp)
      show (argClean "tag" && (argClean "-d" && (argClean (backupTagName e.now) && true))) = true
      rw [hbtn]
      decide
    · exact h10 t h'
  rw [rollback_reaches_finish s c o e (by omega) h2 h3 h4 h5 h6]
  unfold rollbackFinish
  rw [if_neg (by simp [h7])]
  have hmem : backupTagName e.now ∈ (backupTagName e.now :: s.tags).take 10 := by
    have hh : (backupTagName e.now :: s.tags).take 10 =
        backupTagName e.now :: s.tags.take 9 := rfl
    rw [hh]
    exact List.mem_cons_self _ _
  have hlen : ((backupTagName e.now :: s.tags).take 10).length ≤ 10 := by
    rw [List.length_take]
    omega
  by_cases hcf : o.noConfirm = false ∧ o.force = false ∧
      jsToLower e.answer ≠ "y" ∧ jsToLower e.answer ≠ "yes"
  · rw [if_pos hcf]
    exact ⟨htags, by rw [show ((⟨.cancelled, backupStepStore s e.now e.tagCreateOk,
        checksTrace e ++ backupStepTrace s e.now e.tagCreateOk⟩ :
        RollbackOutcome)).store.tags = (backupStepStore s e.now e.tagCreateOk).tags
        from rfl, htags]; exact hlen,
      by rw [show ((⟨.cancelled, backupStepStore s e.now e.tagCreateOk,
        checksTrace e ++ backupStepTrace s e.now e.tagCreateOk⟩ :
        RollbackOutcome)).store.tags = (backupStepStore s e.now e.tagCreateOk).tags
        from rfl, htags]; exact hmem⟩
  · rw [if_neg hcf]
    have hres : (rollbackReset (backupStepStore s e.now e.tagCreateOk) c
        (checksTrace e ++ backupStepTrace s e.now e.tagCreateOk)).store.tags =
        (backupStepStore s e.now e.tagCreateOk).tags := rfl
    rw [hres, htags]
    exact ⟨rfl, hlen, hmem⟩

/-- C7 witness: a forced, no-confirm rollback creating the first backup
tag on a store with no prior tags. -/
theorem backup_retention_witness :
    (rollback sampleStore 1 ⟨false, false, true⟩ sampleEnvNoPrimary).store.tags =
      (backupTagName sampleEnvNoPrimary.now :: sampleStore.tags).take 10 ∧
    (rollback sampleStore 1 ⟨false, false, true⟩ sampleEnvNoPrimary).store.tags.length ≤ 10 ∧
    backupTagName sampleEnvNoPrimary.now ∈
      (rollback sampleStore 1 ⟨false, false, true⟩ sampleEnvNoPrimary).store.tags :=
  backup_retention sampleStore 1 ⟨false, false, true⟩ sampleEnvNoPrimary
    (by decide) (by decide) (by decide) (by decide)
    (by decide) (by decide) (by decide) (by decide) (by decide)
    (by intro t ht; cases ht)

/- ===================== C9 ===================== -/

/-- C9: during `rollback`, when a primary repository exists and its
status query itself fails, the failure is non-fatal: the run's outcome
(terminal state, store mutation and invocation trace) is identical to
the run in which the primary repository reported a clean status — the
state machine logs a note and continues. -/
theorem rollback_primary_failure_nonfatal (s : ShadowStore) (c : Int)
    (o : RollbackOptions) (now : String) (tOk : Bool) (ans : String) :
    rollback s c o ⟨true, .failed, now, tOk, ans⟩ =
    rollback s c o ⟨true, .ok "", now, tOk, ans⟩ := by
  unfold rollback
  split_ifs <;> rfl

/- ===================== C3 ===================== -/

theorem traceOk_historyCount : TraceOk historyCountTrace := by
  intro inv h
  rcases List.mem_cons.mp h with h' | h'
  · exact h' ▸ invOk_gitCall _
  · cases h'

/-- Every invocation any `rollback` run records is disciplined. -/
theorem rollback_traceOk (s : ShadowStore) (c : Int) (o : RollbackOptions)
    (e : RollbackEnv) : TraceOk (rollback s c o e).trace := by
  rcases rollback_outcome_cases s c o e with h | h | h | h | h | h <;> rw [h]
  · intro inv hm; cases hm
  · intro inv hm; cases hm
  · exact traceOk_historyCount
  · exact traceOk_dirtyCheck
  · exact traceOk_checks e
  · exact traceOk_finish _ _ _ _ _ _ _ (traceOk_checks e)

theorem commitMainTrace_execTrace (s : ShadowStore) (msg : String) :
    ∀ inv ∈ commitMainTrace s msg, inv.shell = false ∧ inv.viaExecGit = true := by
  intro inv hm
  unfold commitMainTrace commitPreTrace at hm
  rcases List.mem_append.mp hm with h | h
  · rcases List.mem_append.mp h with h' | h'
    · rcases List.mem_append.mp h' with h'' | h''
      · rcases List.mem_cons.mp h'' with h3 | h3
        · exact h3 ▸ ⟨rfl, rfl⟩
        rcases List.mem_cons.mp h3 with h4 | h4
        · exact h4 ▸ ⟨rfl, rfl⟩
        rcases List.mem_cons.mp h4 with h5 | h5
        · exact h5 ▸ ⟨rfl, rfl⟩
        · cases h5
      · rcases List.mem_cons.mp h'' with h3 | h3
        · exact h3 ▸ ⟨rfl, rfl⟩
        rcases List.mem_cons.mp h3 with h4 | h4
        · exact h4 ▸ ⟨rfl, rfl⟩
        · cases h4
    · revert h'
      split
      · intro h'
        rcases List.mem_cons.mp h' with h3 | h3
        · exact h3 ▸ ⟨rfl, rfl⟩
        · cases h3
      · intro h'; cases h'
  · rcases List.mem_cons.mp h with h3 | h3
    · exact h3 ▸ ⟨rfl, rfl⟩
    · cases h3

theorem commitBody_execTrace (s : ShadowStore) (str : Option String) (ts : String) :
    ∀ inv ∈ (commitBody s str ts).trace,
      inv.shell = false ∧ inv.viaExecGit = true := by
  intro inv hm
  unfold commitBody at hm
  split at hm
  · cases hm
  split at hm
  · rcases List.mem_cons.mp hm with h' | h'
    · exact h' ▸ ⟨rfl, rfl⟩
    · cases h'
  split at hm
  · exact commitMainTrace_execTrace s _ inv hm
  · unfold commitPreTrace at hm
    rcases List.mem_cons.mp hm with h' | h'
    · exact h' ▸ ⟨rfl, rfl⟩
    rcases List.mem_cons.mp h' with h'' | h''
    · exact h'' ▸ ⟨rfl, rfl⟩
    rcases List.mem_cons.mp h'' with h3 | h3
    · exact h3 ▸ ⟨rfl, rfl⟩
    · cases h3

/-- Every invocation any `commit` run records goes through `execGit`. -/
theorem commit_execTrace (s : ShadowStore) (m : Option String) (ts : String) :
    ∀ inv ∈ (commit s m ts).trace, inv.shell = false ∧ inv.viaExecGit = true := by
  unfold commit
  cases m with
  | none => exact commitBody_execTrace s none ts
  | some mm =>
      intro inv hm
      have hm' : inv ∈ (if 1000 < mm.length then
          (⟨.messageTooLong, s, []⟩ : CommitOutcome)
        else commitBody s (some (stripControl mm)) ts).trace := hm
      by_cases hl : 1000 < mm.length
      · rw [if_pos hl] at hm'; cases hm'
      · rw [if_neg hl] at hm'; exact commitBody_execTrace s _ ts inv hm' 

/-- An argument containing a dangerous pattern makes the gate reject. -/
theorem execGitCheck_reject (args : List String) (a p : String)
    (ha : a ∈ args) (hp : p ∈ dangerousPatterns) (hc : containsSub a p = true) :
    execGitCheck args = false := by
  cases hx : execGitCheck args with
  | false => rfl
  | true =>
      have h1 : argClean a = true := execGitCheck_forall hx a ha
      have h2 : (!(containsSub a p)) = true := by
        have := List.all_eq_true.mp h1 p hp
        simpa using this
      rw [hc] at h2
      cases h2

/-- C3 counterexample: a rollback run against a working tree that has a
primary repository issues the primary-status query directly through
`execa`, NOT through the `execGit` sanitizer gate — so not every engine
invocation passes through the gate. -/
theorem rollback_unsanitized_primary_call :
    primaryStatusCall ∈ (rollback sampleStore 1 allOff sampleEnvPrimary).trace ∧
    primaryStatusCall.viaExecGit = false := by
  decide

/-- C3 (amended): every engine invocation issued by `rollback` or
`commit` uses an argument vector with shell interpretation disabled, and
every invocation that bypasses the `execGit` sanitizer gate is the one
constant read-only primary-status query (`['status', '--porcelain']`) in
`rollback`; all `commit` invocations go through the gate, and the gate
rejects any argument list containing a shell metacharacter before the
engine is invoked. -/
theorem engine_invocation_discipline :
    (∀ (s : ShadowStore) (c : Int) (o : RollbackOptions) (e : RollbackEnv)
        (inv : GitInvocation), inv ∈ (rollback s c o e).trace → invokedSafely inv) ∧
    (∀ (s : ShadowStore) (m : Option String) (ts : String) (inv : GitInvocation),
        inv ∈ (commit s m ts).trace → inv.shell = false ∧ inv.viaExecGit = true) ∧
    (∀ (args : List String) (a p : String), a ∈ args → p ∈ dangerousPatterns →
        containsSub a p = true → execGitCheck args = false) :=
  ⟨fun s c o e inv h => rollback_traceOk s c o e inv h,
   fun s m ts inv h => commit_execTrace s m ts inv h,
   fun args a p ha hp hc => execGitCheck_reject args a p ha hp hc⟩

/-- C3 witness: the discipline applied to concrete runs, and the gate
rejecting a concrete injection attempt. -/
theorem engine_invocation_discipline_witness :
    invokedSafely primaryStatusCall ∧
    ((gitCall ["add", "-A"]).shell = false ∧ (gitCall ["add", "-A"]).viaExecGit = true) ∧
    execGitCheck ["status", "; rm -rf x"] = false :=
  ⟨engine_invocation_discipline.1 sampleStore 1 allOff sampleEnvPrimary
      primaryStatusCall (by decide),
   engine_invocation_discipline.2.1 sampleDirtyStore none "2025-01-01 00:00:00"
      (gitCall ["add", "-A"]) (by decide),
   engine_invocation_discipline.2.2 ["status", "; rm -rf x"] "; rm -rf x" ";"
      (by decide) (by decide) (by decide)⟩

/- ===================== C8 ===================== -/

theorem chosenMessage_eq (m : Option String) (ts : String) :
    chosenMessage m ts = commitMsg (strippedOpt m) ts := by
  cases m <;> rfl

theorem commit_eq_body (s : ShadowStore) (m : Option String) (ts : String)
    (hm : validMsgLen m) : commit s m ts = commitBody s (strippedOpt m) ts := by
  cases m with
  | none => rfl
  | some mm =>
      show (if 1000 < mm.length then (⟨.messageTooLong, s, []⟩ : CommitOutcome)
        else commitBody s (some (stripControl mm)) ts) = _
      rw [if_neg (by unfold validMsgLen at hm; omega)]
      rfl

theorem commitBody_noChanges (s : ShadowStore) (str : Option String) (ts : String)
    (hi : s.initialized = true) (hc : jsTrim s.workStatus = "") :
    commitBody s str ts = ⟨.noChanges, s, [gitCall ["status", "--porcelain"]]⟩ := by
  unfold commitBody
  rw [if_neg (by simp [hi]), if_pos hc]

/-- C8: calling `commit` twice on an initialized store with changes and
no intervening working-tree changes creates exactly one checkpoint: the
first call succeeds and extends history by one, the second observes the
now-empty status and returns the `noChanges` success-with-no-op outcome
without mutating the store. -/
theorem commit_idempotent (s : ShadowStore) (m1 m2 : Option String)
    (ts1 ts2 : String)
    (hinit : s.initialized = true) (hdirty : jsTrim s.workStatus ≠ "")
    (hm1 : validMsgLen m1) (hm2 : validMsgLen m2)
    (hclean : execGitCheck ["commit", "-m", chosenMessage m1 ts1] = true) :
    (commit s m1 ts1).result = .committed ∧
    (commit s m1 ts1).store.history.length = s.history.length + 1 ∧
    (commit (commit s m1 ts1).store m2 ts2).result = .noChanges ∧
    (commit (commit s m1 ts1).store m2 ts2).store = (commit s m1 ts1).store := by
  have hgate : execGitCheck ["commit", "-m", commitMsg (strippedOpt m1) ts1] = true := by
    rw [← chosenMessage_eq]; exact hclean
  have hfirst : commit s m1 ts1 =
      ⟨.committed,
       { s with
           history := ⟨"h" ++ toString s.history.length,
                       commitMsg (strippedOpt m1) ts1, s.workTree⟩ :: s.history,
           workStatus := "" },
       commitMainTrace s (commitMsg (strippedOpt m1) ts1)⟩ := by
    rw [commit_eq_body s m1 ts1 hm1]
    unfold commitBody
    rw [if_neg (by simp [hinit]), if_neg hdirty, if_pos hgate]
  have hnc : commitBody ({ s with
      history := ⟨"h" ++ toString s.history.length,
                  commitMsg (strippedOpt m1) ts1, s.workTree⟩ :: s.history,
      workStatus := "" } : ShadowStore) (strippedOpt m2) ts2 =
      ⟨.noChanges,
       { s with
         history := ⟨"h" ++ toString s.history.length,
                     commitMsg (strippedOpt m1) ts1, s.workTree⟩ :: s.history,
         workStatus := "" },
       [gitCall ["status", "--porcelain"]]⟩ :=
    commitBody_noChanges _ _ _ hinit rfl
  rw [hfirst]
  refine ⟨rfl, by simp, ?_, ?_⟩ <;>
    rw [commit_eq_body _ m2 ts2 hm2, hnc]

/-- C8 witness: two commits with the generated message on a dirty store. -/
theorem commit_idempotent_witness :
    (commit sampleDirtyStore none "2025-01-01 00:00:00").result = .committed ∧
    (commit sampleDirtyStore none "2025-01-01 00:00:00").store.history.length =
      sampleDirtyStore.history.length + 1 ∧
    (commit (commit sampleDirtyStore none "2025-01-01 00:00:00").store
        none "2025-01-01 00:00:05").result = .noChanges ∧
    (commit (commit sampleDirtyStore none "2025-01-01 00:00:00").store
        none "2025-01-01 00:00:05").store =
      (commit sampleDirtyStore none "2025-01-01 00:00:00").store :=
  commit_idempotent sampleDirtyStore none none "2025-01-01 00:00:00" "2025-01-01 00:00:05"
    (by decide) (by decide) trivial trivial (by decide)

/- ===================== C10 ===================== -/

/-- C10 counterexample: a supplied message consisting only of control
characters strips to the empty string, which `commit` treats as absent —
the checkpoint message is the generated template message, not the
stripped supplied message. -/
theorem commit_control_message_counterexample :
    stripControl "\x01" = "" ∧
    (commit sampleDirtyStore (some "\x01") "2025-01-01 00:00:00").result = .committed ∧
    ((commit sampleDirtyStore (some "\x01") "2025-01-01 00:00:00").store.history.head?).map
        Checkpoint.message = some "AI change at 2025-01-01 00:00:00" ∧
    some "AI change at 2025-01-01 00:00:00" ≠ some (stripControl "\x01") := by
  decide

/-- C10 (amended): a supplied message longer than 1000 characters makes
`commit` throw before the initialization check and before any engine
invocation (the store is returned untouched with an empty trace); a
message of at most 1000 characters is never rejected for its length;
such a message has all ASCII control characters (U+0000..U+001F, U+007F)
removed, and the stripped message is used as the checkpoint message
whenever it is non-empty — a message consisting solely of control
characters strips to empty and is replaced by the generated template
message. -/
theorem commit_message_validation (s : ShadowStore) (m : String) (ts : String) :
    (1000 < m.length → commit s (some m) ts = ⟨.messageTooLong, s, []⟩) ∧
    (m.length ≤ 1000 → (commit s (some m) ts).result ≠ .messageTooLong) ∧
    (m.length ≤ 1000 → stripControl m ≠ "" → chosenMessage (some m) ts = stripControl m) ∧
    (m.length ≤ 1000 → s.initialized = true → jsTrim s.workStatus ≠ "" →
        execGitCheck ["commit", "-m", chosenMessage (some m) ts] = true →
        ((commit s (some m) ts).store.history.head?).map Checkpoint.message =
          some (chosenMessage (some m) ts)) := by
  refine ⟨?_, ?_, ?_, ?_⟩
  · intro h
    show (if 1000 < m.length then (⟨.messageTooLong, s, []⟩ : CommitOutcome)
      else commitBody s (some (stripControl m)) ts) = _
    rw [if_pos h]
  · intro h
    rw [commit_eq_body s (some m) ts h]
    unfold commitBody
    split
    · exact fun hc => by cases hc
    split
    · exact fun hc => by cases hc
    split
    · exact fun hc => by cases hc
    · exact fun hc => by cases hc
  · intro _ hne
    show (if stripControl m = "" then formatCommitMessage ts else stripControl m) =
      stripControl m
    rw [if_neg hne]
  · intro hle hinit hdirty hgate
    have hg : execGitCheck ["commit", "-m", commitMsg (strippedOpt (some m)) ts] = true := by
      rw [← chosenMessage_eq]; exact hgate
    rw [commit_eq_body s (some m) ts hle]
    unfold commitBody
    rw [if_neg (by simp [hinit]), if_neg hdirty, if_pos hg]
    show some (commitMsg (strippedOpt (some m)) ts) = _
    rw [← chosenMessage_eq]

set_option maxRecDepth 100000 in
/-- C10 witness: the three behaviours at concrete messages. -/
theorem commit_message_validation_witness :
    commit sampleStore (some longMessage) "t" = ⟨.messageTooLong, sampleStore, []⟩ ∧
    (commit sampleDirtyStore (some "fix") "t").result ≠ .messageTooLong ∧
    chosenMessage (some "fix\x01") "t" = stripControl "fix\x01" ∧
    ((commit sampleDirtyStore (some "fix") "t").store.history.head?).map
        Checkpoint.message = some (chosenMessage (some "fix") "t") :=
  ⟨(commit_message_validation sampleStore longMessage "t").1 (by decide),
   (commit_message_validation sampleDirtyStore "fix" "t").2.1 (by decide),
   (commit_message_validation sampleStore "fix\x01" "t").2.2.1 (by decide) (by decide),
   (commit_message_validation sampleDirtyStore "fix" "t").2.2.2
     (by decide) (by decide) (by decide) (by decide)⟩
